import Mathlib

/-!
Shallow embedding of the nighthawk test-server request-time configuration
and delay-injection core:

* `source/server/http_dynamic_delay_filter.h` — the concurrency counter
  (a function-local static `std::atomic<uint64_t>` shared by all
  `HttpDynamicDelayDecoderFilterConfig` instances) and the linear delay
  computation `computeConcurrencyBasedLinearDelayMs`.
* `source/server/http_filter_config_base.cc` — per-request effective
  configuration resolution (`computeEffectiveConfiguration`) and error
  surfacing (`validateOrSendError`).
* `source/server/http_time_tracking_filter.cc` — the time-tracking filter's
  decode/encode steps.

Machine integers are modelled as `Nat`/`Int` with explicit `% 2^64` where
wraparound matters; fallible operations return `Except`; the floating-point
expression `std::round(ns / 1e6)` is modelled in exact arithmetic as
round-half-away-from-zero of `ns / 10^6`.
-/

namespace Nighthawk

namespace Server

/-- Embedding of `Envoy::ProtobufWkt::Duration`: a seconds count and a
nanoseconds part.  `TimeUtil::DurationToNanoseconds` is
`seconds * 10^9 + nanos`. -/
structure ProtoDuration where
  seconds : Int
  nanos : Int
  deriving Repr, DecidableEq

/-- `TimeUtil::DurationToNanoseconds`. -/
def ProtoDuration.toNanoseconds (d : ProtoDuration) : Int :=
  d.seconds * 1000000000 + d.nanos

/-- Proto `Duration` addition (`operator+`), modelled in exact arithmetic;
it has the same nanosecond image as the normalized TimeUtil sum. -/
def ProtoDuration.add (a b : ProtoDuration) : ProtoDuration :=
  ⟨a.seconds + b.seconds, a.nanos + b.nanos⟩

/-- Proto `Duration` multiplication by an unsigned integer
(`concurrency * delay_factor`), modelled in exact arithmetic. -/
def ProtoDuration.scaleNat (c : Nat) (d : ProtoDuration) : ProtoDuration :=
  ⟨(c : Int) * d.seconds, (c : Int) * d.nanos⟩

/-- `std::round(ns / 1e6)` from `computeConcurrencyBasedLinearDelayMs`,
modelled in exact arithmetic: the nearest integer to `ns / 10^6`, ties
rounded half away from zero (the C `round` semantics). -/
def stdRoundNanosToMillis (ns : Int) : Int :=
  if 0 ≤ ns then ((ns.toNat + 500000) / 1000000 : Nat)
  else -(((-ns).toNat + 500000) / 1000000 : Nat)

/-- `HttpDynamicDelayDecoderFilter::computeConcurrencyBasedLinearDelayMs`:
`std::round(DurationToNanoseconds(minimal_delay + concurrency * delay_factor) / 1e6)`. -/
def computeConcurrencyBasedLinearDelayMs (concurrency : Nat)
    (minimal_delay delay_factor : ProtoDuration) : Int :=
  stdRoundNanosToMillis
    (ProtoDuration.toNanoseconds
      (ProtoDuration.add minimal_delay (ProtoDuration.scaleNat concurrency delay_factor)))

theorem toNanoseconds_add_scale (a b : ProtoDuration) (c : Nat) :
    (ProtoDuration.add a (ProtoDuration.scaleNat c b)).toNanoseconds =
      a.toNanoseconds + (c : Int) * b.toNanoseconds := by
  simp only [ProtoDuration.add, ProtoDuration.scaleNat, ProtoDuration.toNanoseconds]
  ring

theorem stdRoundNanosToMillis_nonneg_bounds (ns : Int) (h : 0 ≤ ns) :
    0 ≤ stdRoundNanosToMillis ns ∧
      -1000000 ≤ 2 * (ns - 1000000 * stdRoundNanosToMillis ns) ∧
      2 * (ns - 1000000 * stdRoundNanosToMillis ns) < 1000000 := by
  have hns : (ns.toNat : Int) = ns := Int.toNat_of_nonneg h
  have hdm := Nat.div_add_mod (ns.toNat + 500000) 1000000
  have hlt : (ns.toNat + 500000) % 1000000 < 1000000 := Nat.mod_lt _ (by omega)
  rw [stdRoundNanosToMillis, if_pos h]
  constructor
  · exact Int.natCast_nonneg _
  · omega

theorem stdRoundNanosToMillis_neg_bounds (ns : Int) (h : ns < 0) :
    stdRoundNanosToMillis ns ≤ 0 ∧
      -1000000 < 2 * (ns - 1000000 * stdRoundNanosToMillis ns) ∧
      2 * (ns - 1000000 * stdRoundNanosToMillis ns) ≤ 1000000 := by
  have hns : ((-ns).toNat : Int) = -ns := Int.toNat_of_nonneg (by omega)
  have hdm := Nat.div_add_mod ((-ns).toNat + 500000) 1000000
  have hlt : ((-ns).toNat + 500000) % 1000000 < 1000000 := Nat.mod_lt _ (by omega)
  rw [stdRoundNanosToMillis, if_neg (by omega)]
  refine ⟨by omega, by omega, by omega⟩

/-- Modelled from the spec: the serializable fields of
`nighthawk::server::ResponseOptions` that the core reads (the proto schema
file `api/server/response_options.proto` is not among the available
sources).  Fields: the response code, the response-gap header name
(`emit_previous_request_delta_in_response_header`, read by
`HttpTimeTrackingFilter::encodeHeaders`), and a fixed delay. -/
structure ResponseOptions where
  response_code : Nat
  emit_previous_request_delta_in_response_header : String
  static_delay : Option ProtoDuration
  deriving Repr, DecidableEq

/-- Modelled from the spec: a JSON-encoded partial configuration — each
`ResponseOptions` field either present (to replace the base value) or
absent (the base value is retained). -/
structure PartialResponseOptions where
  response_code : Option Nat
  emit_previous_request_delta_in_response_header : Option String
  static_delay : Option (Option ProtoDuration)
  deriving Repr, DecidableEq

/-- Modelled from the spec: a request-supplied override header value,
represented by its JSON parse outcome — either the partial configuration
the text encodes, or the parse error message.  (The JSON text itself is
not modelled; `Configuration::mergeJsonConfig` lives in
`source/server/configuration.cc`, which is not among the available
sources.) -/
inductive OverrideHeaderValue where
  | parsed (fragment : PartialResponseOptions)
  | malformed (msg : String)
  deriving Repr, DecidableEq

/-- Deep merge of a partial configuration onto a base configuration:
fields present in the override replace the corresponding base fields,
absent fields retain the base values. -/
def applyOverride (f : PartialResponseOptions) (base : ResponseOptions) : ResponseOptions where
  response_code := f.response_code.getD base.response_code
  emit_previous_request_delta_in_response_header :=
    f.emit_previous_request_delta_in_response_header.getD
      base.emit_previous_request_delta_in_response_header
  static_delay := f.static_delay.getD base.static_delay

/-- Modelled from the spec: `Configuration::mergeJsonConfig(json, options,
error_message)` — parse the override header value as a JSON partial
configuration and deep-merge it onto `opts`; on parse/merge failure report
the error message. -/
def mergeJsonConfig (v : OverrideHeaderValue) (opts : ResponseOptions) :
    Except String ResponseOptions :=
  match v with
  | .parsed fragment => .ok (applyOverride fragment opts)
  | .malformed msg => .error msg

/-- A request header map, as the list of (name, value) pairs; header names
may legally repeat. -/
abbrev RequestHeaderMap : Type := List (String × OverrideHeaderValue)

/-- `HeaderMap::get(name)`: all values carried under `name`, in order. -/
def headersGet (headers : RequestHeaderMap) (name : String) : List OverrideHeaderValue :=
  (headers.filter (fun p => p.1 = name)).map (fun p => p.2)

/-- `TestServer::HeaderNames::get().TestServerConfig`, the well-known
override request header name (an externally defined registry constant;
`source/server/well_known_headers.h` is not among the available sources). -/
def testServerConfigHeaderName : String := "x-nighthawk-test-server-config"

/-- `FilterConfigurationBase`: the filter name and the stored base
configuration `server_config_` (copied from the proto at construction). -/
structure FilterConfigurationBase where
  filter_name : String
  server_config : ResponseOptions
  deriving Repr, DecidableEq

/-- `FilterConfigurationBase::FilterConfigurationBase(proto_config,
filter_name)`: stores the filter name and a copy of the proto
configuration. -/
def FilterConfigurationBase.mk' (proto_config : ResponseOptions)
    (filter_name : String) : FilterConfigurationBase :=
  ⟨filter_name, proto_config⟩

/-- `FilterConfigurationBase::computeEffectiveConfiguration(headers)`.
The C++ method is stateful (non-const receiver), so the embedding threads
the object state explicitly and returns it alongside the result:
* exactly one override header value — copy `server_config_`, merge the
  value onto the copy, return the merged copy or the merge error;
* more than one value — the duplicate-header error;
* zero values — `server_config_` itself. -/
def FilterConfigurationBase.computeEffectiveConfiguration
    (self : FilterConfigurationBase) (headers : RequestHeaderMap) :
    Except String ResponseOptions × FilterConfigurationBase :=
  let request_config_header := headersGet headers testServerConfigHeaderName
  if h : request_config_header.length = 1 then
    let response_options := self.server_config
    match mergeJsonConfig (request_config_header.get ⟨0, by omega⟩) response_options with
    | .ok merged => (.ok merged, self)
    | .error error_message => (.error error_message, self)
  else if 1 < request_config_header.length then
    (.error "Received multiple configuration headers in the request, expected only one.", self)
  else
    (.ok self.server_config, self)

/-- A local reply emitted through
`StreamDecoderFilterCallbacks::sendLocalReply`: HTTP status code and body. -/
structure LocalReply where
  code : Nat
  body : String
  deriving Repr, DecidableEq

/-- `FilterConfigurationBase::validateOrSendError(effective_config,
decoder_callbacks)`: if the effective configuration is an error, send a
local reply with status 500 and body
`"<filter-name> didn't understand the request: <message>"` and return
`true`; otherwise return `false`.  The callbacks are modelled as the list
of replies sent so far. -/
def FilterConfigurationBase.validateOrSendError (self : FilterConfigurationBase)
    (effective_config : Except String ResponseOptions)
    (sent_replies : List LocalReply) : Bool × List LocalReply :=
  match effective_config with
  | .error msg =>
      (true,
        sent_replies ++
          [⟨500, self.filter_name ++ " didn't understand the request: " ++ msg⟩])
  | .ok _ => (false, sent_replies)

/-- `Envoy::Http::FilterHeadersStatus` (the two values this code uses). -/
inductive FilterHeadersStatus where
  | Continue
  | StopIteration
  deriving Repr, DecidableEq

/-- `Envoy::Http::FilterDataStatus` (the two values this code uses). -/
inductive FilterDataStatus where
  | Continue
  | StopIterationNoBuffer
  deriving Repr, DecidableEq

/-- A response header map: (name, value) pairs in order. -/
abbrev ResponseHeaderMap : Type := List (String × String)

/-- `HttpTimeTrackingFilter` request-scoped state: the shared filter
configuration, the per-request `effective_config_` (`absl::StatusOr`,
default-constructed to an unknown error before `decodeHeaders` runs),
`last_request_delta_ns_`, and the record of local replies sent through the
decoder callbacks. -/
structure HttpTimeTrackingFilter where
  config : FilterConfigurationBase
  effective_config : Except String ResponseOptions
  last_request_delta_ns : Nat
  sent_replies : List LocalReply
  deriving Repr

/-- A freshly constructed `HttpTimeTrackingFilter` after
`setDecoderFilterCallbacks` stored the stopwatch reading `delta_ns`:
`effective_config_` still holds its default-constructed (unknown-error)
`absl::StatusOr`, and no local reply has been sent. -/
def HttpTimeTrackingFilter.mk' (config : FilterConfigurationBase)
    (delta_ns : Nat) : HttpTimeTrackingFilter :=
  ⟨config, .error "Unknown", delta_ns, []⟩

/-- `HttpTimeTrackingFilter::decodeHeaders(headers, end_stream)`: resolve
and store the effective configuration; if the headers carry end-of-stream,
validate it and stop iteration when an error reply was sent. -/
def HttpTimeTrackingFilter.decodeHeaders (f : HttpTimeTrackingFilter)
    (headers : RequestHeaderMap) (end_stream : Bool) :
    FilterHeadersStatus × HttpTimeTrackingFilter :=
  let step := FilterConfigurationBase.computeEffectiveConfiguration f.config headers
  let f := { f with config := step.2, effective_config := step.1 }
  if end_stream then
    match FilterConfigurationBase.validateOrSendError f.config f.effective_config
        f.sent_replies with
    | (true, sent) => (.StopIteration, { f with sent_replies := sent })
    | (false, sent) => (.Continue, { f with sent_replies := sent })
  else
    (.Continue, f)

/-- `HttpTimeTrackingFilter::decodeData(_, end_stream)`: if this data call
carries end-of-stream, validate the stored effective configuration and
stop iteration when an error reply was sent.  The body bytes themselves
are ignored by the source, so they are not modelled. -/
def HttpTimeTrackingFilter.decodeData (f : HttpTimeTrackingFilter)
    (end_stream : Bool) : FilterDataStatus × HttpTimeTrackingFilter :=
  if end_stream then
    match FilterConfigurationBase.validateOrSendError f.config f.effective_config
        f.sent_replies with
    | (true, sent) => (.StopIterationNoBuffer, { f with sent_replies := sent })
    | (false, sent) => (.Continue, { f with sent_replies := sent })
  else
    (.Continue, f)

/-- `HttpTimeTrackingFilter::encodeHeaders(response_headers, _)`: when the
effective configuration resolved successfully, a response-gap header name
is configured (non-empty) and the previously measured gap is strictly
positive, append that header (lower-cased) with the gap in nanoseconds as
decimal text (`absl::StrCat`). -/
def HttpTimeTrackingFilter.encodeHeaders (f : HttpTimeTrackingFilter)
    (response_headers : ResponseHeaderMap) :
    FilterHeadersStatus × ResponseHeaderMap :=
  match f.effective_config with
  | .ok eff =>
      if eff.emit_previous_request_delta_in_response_header ≠ "" ∧
          0 < f.last_request_delta_ns then
        (.Continue,
          response_headers ++
            [(eff.emit_previous_request_delta_in_response_header.toLower,
              toString f.last_request_delta_ns)])
      else
        (.Continue, response_headers)
  | .error _ => (.Continue, response_headers)

/-- Identity of one `HttpDynamicDelayDecoderFilterConfig` object (two
distinct constructed instances have two distinct identities). -/
abbrev ConfigId : Type := Nat

/-- `2^64`: the modulus of the `std::atomic<uint64_t>` counter. -/
def uint64Mod : Nat := 18446744073709551616

/-- `HttpDynamicDelayDecoderFilterConfig::instances()` is a *static*
member returning a function-local static `std::atomic<uint64_t>`,
lazy-initialized to 0: a single process-wide counter.  Its value is the
process-wide state; the configuration object plays no part in locating
it. -/
def HttpDynamicDelayDecoderFilterConfig.instances (cfg : ConfigId)
    (counter : Nat) : Nat :=
  counter

/-- `HttpDynamicDelayDecoderFilterConfig::incrementFilterInstanceCount()`:
`instances()++` on the process-wide `uint64_t` counter (wrapping). -/
def HttpDynamicDelayDecoderFilterConfig.incrementFilterInstanceCount
    (cfg : ConfigId) (counter : Nat) : Nat :=
  (HttpDynamicDelayDecoderFilterConfig.instances cfg counter + 1) % uint64Mod

/-- `HttpDynamicDelayDecoderFilterConfig::decrementFilterInstanceCount()`:
`instances()--` on the process-wide `uint64_t` counter (wrapping). -/
def HttpDynamicDelayDecoderFilterConfig.decrementFilterInstanceCount
    (cfg : ConfigId) (counter : Nat) : Nat :=
  (HttpDynamicDelayDecoderFilterConfig.instances cfg counter + (uint64Mod - 1)) % uint64Mod

/-- `HttpDynamicDelayDecoderFilterConfig::approximateFilterInstances()`:
a snapshot read of `instances()`. -/
def HttpDynamicDelayDecoderFilterConfig.approximateFilterInstances
    (cfg : ConfigId) (counter : Nat) : Nat :=
  HttpDynamicDelayDecoderFilterConfig.instances cfg counter

/-- One operation on the shared counter (the configuration instance
through which it is performed is irrelevant, see `instances`). -/
inductive CounterOp where
  | inc
  | dec
  deriving Repr, DecidableEq

/-- Apply one counter operation to the process-wide counter value. -/
def applyCounterOp (counter : Nat) : CounterOp → Nat
  | .inc => HttpDynamicDelayDecoderFilterConfig.incrementFilterInstanceCount 0 counter
  | .dec => HttpDynamicDelayDecoderFilterConfig.decrementFilterInstanceCount 0 counter

/-- Run a sequence of counter operations (one sequentially consistent
interleaving of atomic read-modify-writes). -/
def runCounter (counter : Nat) (ops : List CounterOp) : Nat :=
  ops.foldl applyCounterOp counter

/-- Every counter value observable along a run: the value before each
operation and the final value. -/
def counterTrace (counter : Nat) : List CounterOp → List Nat
  | [] => [counter]
  | op :: ops => counter :: counterTrace (applyCounterOp counter op) ops

/-- Run a sequence of `decodeData` calls (one per body-data event, each
carrying its end-of-stream flag) through the filter, keeping the state. -/
def decodeDataFold (f : HttpTimeTrackingFilter) (flags : List Bool) :
    HttpTimeTrackingFilter :=
  flags.foldl (fun st es => (st.decodeData es).2) f

deriving instance DecidableEq for Except

/-! ## Helper lemmas -/

theorem computeEffectiveConfiguration_state (self : FilterConfigurationBase)
    (headers : RequestHeaderMap) :
    (self.computeEffectiveConfiguration headers).2 = self := by
  unfold FilterConfigurationBase.computeEffectiveConfiguration
  dsimp only
  split
  · split <;> rfl
  · split <;> rfl

/-! ## Claims -/

/-- Claim C1: for every concurrency value `c` and durations `minimal_delay`
and `delay_factor`, the linear delay computation returns
`minimal_delay + c * delay_factor` evaluated in nanosecond precision and
then rounded to the nearest millisecond, ties rounding half away from zero
(not truncation): writing `ns` for the nanosecond value and `m` for the
returned milliseconds, `m` has the sign of `ns` and `2 * (ns - 10^6 * m)`
lies in `[-10^6, 10^6)` for `ns ≥ 0` (tie at the lower end kept on the
larger `m`, i.e. away from zero) and in `(-10^6, 10^6]` for `ns < 0`;
in particular minimal=100ms, factor=10ms, c=5 yields exactly 150ms. -/
theorem claim_C1_linear_delay_rounding (c : Nat)
    (minimal_delay delay_factor : ProtoDuration) :
    (0 ≤ minimal_delay.toNanoseconds + (c : Int) * delay_factor.toNanoseconds →
      0 ≤ computeConcurrencyBasedLinearDelayMs c minimal_delay delay_factor ∧
      -1000000 ≤ 2 * ((minimal_delay.toNanoseconds + (c : Int) * delay_factor.toNanoseconds)
          - 1000000 * computeConcurrencyBasedLinearDelayMs c minimal_delay delay_factor) ∧
      2 * ((minimal_delay.toNanoseconds + (c : Int) * delay_factor.toNanoseconds)
          - 1000000 * computeConcurrencyBasedLinearDelayMs c minimal_delay delay_factor)
        < 1000000) ∧
    (minimal_delay.toNanoseconds + (c : Int) * delay_factor.toNanoseconds < 0 →
      computeConcurrencyBasedLinearDelayMs c minimal_delay delay_factor ≤ 0 ∧
      -1000000 < 2 * ((minimal_delay.toNanoseconds + (c : Int) * delay_factor.toNanoseconds)
          - 1000000 * computeConcurrencyBasedLinearDelayMs c minimal_delay delay_factor) ∧
      2 * ((minimal_delay.toNanoseconds + (c : Int) * delay_factor.toNanoseconds)
          - 1000000 * computeConcurrencyBasedLinearDelayMs c minimal_delay delay_factor)
        ≤ 1000000) ∧
    computeConcurrencyBasedLinearDelayMs 5 ⟨0, 100000000⟩ ⟨0, 10000000⟩ = 150 := by
  rw [computeConcurrencyBasedLinearDelayMs, toNanoseconds_add_scale]
  exact ⟨fun h => stdRoundNanosToMillis_nonneg_bounds _ h,
    fun h => stdRoundNanosToMillis_neg_bounds _ h, by decide⟩

theorem claim_C1_witness :
    0 ≤ computeConcurrencyBasedLinearDelayMs 5 ⟨0, 100000000⟩ ⟨0, 10000000⟩ ∧
    -1000000 ≤ 2 * ((ProtoDuration.toNanoseconds ⟨0, 100000000⟩
        + ((5 : Nat) : Int) * ProtoDuration.toNanoseconds ⟨0, 10000000⟩)
        - 1000000 * computeConcurrencyBasedLinearDelayMs 5 ⟨0, 100000000⟩ ⟨0, 10000000⟩) ∧
    2 * ((ProtoDuration.toNanoseconds ⟨0, 100000000⟩
        + ((5 : Nat) : Int) * ProtoDuration.toNanoseconds ⟨0, 10000000⟩)
        - 1000000 * computeConcurrencyBasedLinearDelayMs 5 ⟨0, 100000000⟩ ⟨0, 10000000⟩)
      < 1000000 :=
  (claim_C1_linear_delay_rounding 5 ⟨0, 100000000⟩ ⟨0, 10000000⟩).1 (by decide)

/-- Claim C2: for every base configuration and every request header map
containing zero values for the override header,
`computeEffectiveConfiguration` returns the base configuration exactly,
and never returns an error. -/
theorem claim_C2_no_override_returns_base (self : FilterConfigurationBase)
    (headers : RequestHeaderMap)
    (h : headersGet headers testServerConfigHeaderName = []) :
    (self.computeEffectiveConfiguration headers).1 = .ok self.server_config := by
  simp [FilterConfigurationBase.computeEffectiveConfiguration, h]

theorem claim_C2_witness :
    headersGet [("x-other", OverrideHeaderValue.malformed "z")]
        testServerConfigHeaderName = [] ∧
    (FilterConfigurationBase.computeEffectiveConfiguration
        ⟨"time-tracking", ⟨200, "x-gap", none⟩⟩
        [("x-other", OverrideHeaderValue.malformed "z")]).1 =
      .ok ⟨200, "x-gap", none⟩ :=
  ⟨by decide,
    claim_C2_no_override_returns_base ⟨"time-tracking", ⟨200, "x-gap", none⟩⟩
      [("x-other", OverrideHeaderValue.malformed "z")] (by decide)⟩

/-- Claim C3: for every base configuration and every request carrying
exactly one override header value, `computeEffectiveConfiguration` parses
that value as a JSON partial configuration and deep-merges it onto a copy
of the base: fields present in the override replace the corresponding base
fields, absent fields retain their base values; if parsing or merging
fails it returns an error carrying the merge failure message. -/
theorem claim_C3_single_override_merges (self : FilterConfigurationBase)
    (headers : RequestHeaderMap) :
    (∀ fragment : PartialResponseOptions,
      headersGet headers testServerConfigHeaderName =
          [OverrideHeaderValue.parsed fragment] →
      ∃ eff, (self.computeEffectiveConfiguration headers).1 = .ok eff ∧
        eff.response_code =
          fragment.response_code.getD self.server_config.response_code ∧
        eff.emit_previous_request_delta_in_response_header =
          fragment.emit_previous_request_delta_in_response_header.getD
            self.server_config.emit_previous_request_delta_in_response_header ∧
        eff.static_delay =
          fragment.static_delay.getD self.server_config.static_delay) ∧
    (∀ msg, headersGet headers testServerConfigHeaderName =
          [OverrideHeaderValue.malformed msg] →
      (self.computeEffectiveConfiguration headers).1 = .error msg) := by
  constructor
  · intro fragment h
    refine ⟨applyOverride fragment self.server_config, ?_, rfl, rfl, rfl⟩
    simp [FilterConfigurationBase.computeEffectiveConfiguration, h, mergeJsonConfig]
  · intro msg h
    simp [FilterConfigurationBase.computeEffectiveConfiguration, h, mergeJsonConfig]

theorem claim_C3_witness :
    (∃ eff, (FilterConfigurationBase.computeEffectiveConfiguration
        ⟨"time-tracking", ⟨200, "x-gap", none⟩⟩
        [(testServerConfigHeaderName,
          OverrideHeaderValue.parsed ⟨some 429, none, none⟩)]).1 = .ok eff ∧
      eff.response_code = 429 ∧
      eff.emit_previous_request_delta_in_response_header = "x-gap" ∧
      eff.static_delay = none) ∧
    (FilterConfigurationBase.computeEffectiveConfiguration
        ⟨"time-tracking", ⟨200, "x-gap", none⟩⟩
        [(testServerConfigHeaderName, OverrideHeaderValue.malformed "bad json")]).1 =
      .error "bad json" :=
  ⟨(claim_C3_single_override_merges ⟨"time-tracking", ⟨200, "x-gap", none⟩⟩
      [(testServerConfigHeaderName,
        OverrideHeaderValue.parsed ⟨some 429, none, none⟩)]).1
      ⟨some 429, none, none⟩ (by decide),
   (claim_C3_single_override_merges ⟨"time-tracking", ⟨200, "x-gap", none⟩⟩
      [(testServerConfigHeaderName, OverrideHeaderValue.malformed "bad json")]).2
      "bad json" (by decide)⟩

/-- Claim C4: for every base configuration and every request carrying two
or more override header values, `computeEffectiveConfiguration` returns
the duplicate-override-header error regardless of the values' content (no
value is parsed, no merge is attempted, no first-value-wins resolution). -/
theorem claim_C4_duplicate_override_error (self : FilterConfigurationBase)
    (headers : RequestHeaderMap)
    (h : 2 ≤ (headersGet headers testServerConfigHeaderName).length) :
    (self.computeEffectiveConfiguration headers).1 =
      .error "Received multiple configuration headers in the request, expected only one." := by
  have h1 : ¬ (headersGet headers testServerConfigHeaderName).length = 1 := by omega
  have h2 : 1 < (headersGet headers testServerConfigHeaderName).length := by omega
  simp [FilterConfigurationBase.computeEffectiveConfiguration, h1, h2]

theorem claim_C4_witness :
    2 ≤ (headersGet
        [(testServerConfigHeaderName, OverrideHeaderValue.parsed ⟨some 429, none, none⟩),
         (testServerConfigHeaderName, OverrideHeaderValue.parsed ⟨some 418, none, none⟩)]
        testServerConfigHeaderName).length ∧
    (FilterConfigurationBase.computeEffectiveConfiguration
        ⟨"time-tracking", ⟨200, "x-gap", none⟩⟩
        [(testServerConfigHeaderName, OverrideHeaderValue.parsed ⟨some 429, none, none⟩),
         (testServerConfigHeaderName, OverrideHeaderValue.parsed ⟨some 418, none, none⟩)]).1 =
      .error "Received multiple configuration headers in the request, expected only one." :=
  ⟨by decide,
    claim_C4_duplicate_override_error ⟨"time-tracking", ⟨200, "x-gap", none⟩⟩
      [(testServerConfigHeaderName, OverrideHeaderValue.parsed ⟨some 429, none, none⟩),
       (testServerConfigHeaderName, OverrideHeaderValue.parsed ⟨some 418, none, none⟩)]
      (by decide)⟩

/-- Claim C5: for every request whose configuration resolution produced an
error, the orchestrator responds with HTTP status 500 and a body of
exactly the form `"<filter-name> didn't understand the request: <error
message>"`, and suppresses all further processing of that request (the
filter stops iteration); for a successfully resolved configuration no such
error response is emitted (iteration continues, nothing is sent). -/
theorem claim_C5_error_surfacing (cfg : FilterConfigurationBase) :
    (∀ msg sent, cfg.validateOrSendError (Except.error msg) sent =
      (true, sent ++
        [⟨500, cfg.filter_name ++ " didn't understand the request: " ++ msg⟩])) ∧
    (∀ eff sent, cfg.validateOrSendError (Except.ok eff) sent = (false, sent)) ∧
    (∀ f : HttpTimeTrackingFilter, ∀ headers msg, f.config = cfg →
      (cfg.computeEffectiveConfiguration headers).1 = Except.error msg →
      (f.decodeHeaders headers true).1 = FilterHeadersStatus.StopIteration ∧
      ((f.decodeHeaders headers true).2).sent_replies = f.sent_replies ++
        [⟨500, cfg.filter_name ++ " didn't understand the request: " ++ msg⟩]) ∧
    (∀ f : HttpTimeTrackingFilter, ∀ headers eff, f.config = cfg →
      (cfg.computeEffectiveConfiguration headers).1 = Except.ok eff →
      (f.decodeHeaders headers true).1 = FilterHeadersStatus.Continue ∧
      ((f.decodeHeaders headers true).2).sent_replies = f.sent_replies) := by
  refine ⟨fun msg sent => rfl, fun eff sent => rfl, ?_, ?_⟩
  · intro f headers msg hcfg herr
    subst hcfg
    constructor <;>
      simp [HttpTimeTrackingFilter.decodeHeaders, computeEffectiveConfiguration_state,
        herr, FilterConfigurationBase.validateOrSendError]
  · intro f headers eff hcfg hok
    subst hcfg
    constructor <;>
      simp [HttpTimeTrackingFilter.decodeHeaders, computeEffectiveConfiguration_state,
        hok, FilterConfigurationBase.validateOrSendError]

theorem claim_C5_witness :
    (FilterConfigurationBase.validateOrSendError ⟨"time-tracking", ⟨200, "x-gap", none⟩⟩
        (Except.error "oops") [] =
      (true, [] ++ [⟨500, "time-tracking" ++ " didn't understand the request: " ++ "oops"⟩])) ∧
    ((HttpTimeTrackingFilter.mk' ⟨"time-tracking", ⟨200, "x-gap", none⟩⟩ 0).decodeHeaders
        [(testServerConfigHeaderName, OverrideHeaderValue.malformed "bad"),
         (testServerConfigHeaderName, OverrideHeaderValue.malformed "bad")]
        true).1 = FilterHeadersStatus.StopIteration ∧
    (((HttpTimeTrackingFilter.mk' ⟨"time-tracking", ⟨200, "x-gap", none⟩⟩ 0).decodeHeaders
        [(testServerConfigHeaderName, OverrideHeaderValue.malformed "bad"),
         (testServerConfigHeaderName, OverrideHeaderValue.malformed "bad")]
        true).2).sent_replies = [] ++
      [⟨500, "time-tracking" ++ " didn't understand the request: " ++
        "Received multiple configuration headers in the request, expected only one."⟩] :=
  ⟨(claim_C5_error_surfacing ⟨"time-tracking", ⟨200, "x-gap", none⟩⟩).1 "oops" [],
   (claim_C5_error_surfacing ⟨"time-tracking", ⟨200, "x-gap", none⟩⟩).2.2.1
     (HttpTimeTrackingFilter.mk' ⟨"time-tracking", ⟨200, "x-gap", none⟩⟩ 0)
     [(testServerConfigHeaderName, OverrideHeaderValue.malformed "bad"),
      (testServerConfigHeaderName, OverrideHeaderValue.malformed "bad")]
     "Received multiple configuration headers in the request, expected only one."
     rfl (by decide)⟩

/-- Claim C6 counterexample: the claim says distinct configuration
instances have distinct counters, but `instances()` is a function-local
static atomic shared process-wide: an increment performed through
configuration instance `0` changes the count observed through the distinct
configuration instance `1` (from 0 to 1). -/
theorem claim_C6_counterexample :
    ¬ (HttpDynamicDelayDecoderFilterConfig.approximateFilterInstances 1
        (HttpDynamicDelayDecoderFilterConfig.incrementFilterInstanceCount 0 0) =
      HttpDynamicDelayDecoderFilterConfig.approximateFilterInstances 1 0) := by
  decide

/-- Claim C6 (amended): the concurrency counter is a single process-wide
counter shared by all `HttpDynamicDelayDecoderFilterConfig` instances:
every configuration instance (and hence every request, whichever
configuration instance it was built from) reads and updates the same
counter — increments, decrements and snapshot reads performed through any
two configuration instances act identically on the shared state. -/
theorem claim_C6_single_global_counter (a b : ConfigId) (counter : Nat) :
    HttpDynamicDelayDecoderFilterConfig.instances a counter =
      HttpDynamicDelayDecoderFilterConfig.instances b counter ∧
    HttpDynamicDelayDecoderFilterConfig.incrementFilterInstanceCount a counter =
      HttpDynamicDelayDecoderFilterConfig.incrementFilterInstanceCount b counter ∧
    HttpDynamicDelayDecoderFilterConfig.decrementFilterInstanceCount a counter =
      HttpDynamicDelayDecoderFilterConfig.decrementFilterInstanceCount b counter ∧
    HttpDynamicDelayDecoderFilterConfig.approximateFilterInstances a counter =
      HttpDynamicDelayDecoderFilterConfig.approximateFilterInstances b counter :=
  ⟨rfl, rfl, rfl, rfl⟩

/-- Claim C7: on response-header emission, the response-gap header is
appended if and only if a response-gap header name is configured
(non-empty) in the effective configuration and the previously measured
inter-request gap is strictly positive; when appended, its value is the
gap in nanoseconds rendered as decimal text.  (When configuration
resolution failed there is no effective configuration and nothing is
appended.) -/
theorem claim_C7_response_gap_header (f : HttpTimeTrackingFilter)
    (response_headers : ResponseHeaderMap) :
    (∀ eff, f.effective_config = Except.ok eff →
      (((f.encodeHeaders response_headers).2 ≠ response_headers) ↔
        (eff.emit_previous_request_delta_in_response_header ≠ "" ∧
          0 < f.last_request_delta_ns)) ∧
      ((eff.emit_previous_request_delta_in_response_header ≠ "" ∧
          0 < f.last_request_delta_ns) →
        (f.encodeHeaders response_headers).2 = response_headers ++
          [(eff.emit_previous_request_delta_in_response_header.toLower,
            toString f.last_request_delta_ns)])) ∧
    (∀ msg, f.effective_config = Except.error msg →
      (f.encodeHeaders response_headers).2 = response_headers) := by
  constructor
  · intro eff heff
    have happ : ∀ p : String × String,
        response_headers ++ [p] ≠ response_headers := by
      intro p hEq
      have := congrArg List.length hEq
      simp at this
    constructor
    · constructor
      · intro hne
        by_contra hcond
        apply hne
        simp [HttpTimeTrackingFilter.encodeHeaders, heff, hcond]
      · intro hcond
        have : (f.encodeHeaders response_headers).2 = response_headers ++
            [(eff.emit_previous_request_delta_in_response_header.toLower,
              toString f.last_request_delta_ns)] := by
          simp [HttpTimeTrackingFilter.encodeHeaders, heff, hcond]
        rw [this]
        exact happ _
    · intro hcond
      simp [HttpTimeTrackingFilter.encodeHeaders, heff, hcond]
  · intro msg herr
    simp [HttpTimeTrackingFilter.encodeHeaders, herr]

theorem claim_C7_witness :
    ((⟨⟨"time-tracking", ⟨200, "x-gap", none⟩⟩, Except.ok ⟨200, "x-gap", none⟩,
        5000000, []⟩ : HttpTimeTrackingFilter).encodeHeaders []).2 =
      [] ++ [(("x-gap" : String).toLower, toString (5000000 : Nat))] :=
  ((claim_C7_response_gap_header
      ⟨⟨"time-tracking", ⟨200, "x-gap", none⟩⟩, Except.ok ⟨200, "x-gap", none⟩, 5000000, []⟩
      []).1 ⟨200, "x-gap", none⟩ rfl).2 (by decide)

theorem decodeDataFold_false (f : HttpTimeTrackingFilter) (k : Nat) :
    decodeDataFold f (List.replicate k false) = f := by
  induction k with
  | zero => rfl
  | succ n ih =>
      rw [List.replicate_succ]
      simpa [decodeDataFold, HttpTimeTrackingFilter.decodeData] using ih

/-- Claim C8: for every request whose configuration resolution produced an
error, the error response is never sent before the request body stream is
known to be complete, and it is sent at the earliest point at which the
stream is known complete: at header decode time when the headers carry
end-of-stream, otherwise at the body-data call that carries end-of-stream
(no reply is sent at the header decode without end-of-stream, nor at any
body-data call without end-of-stream). -/
theorem claim_C8_error_reply_timing (cfg : FilterConfigurationBase)
    (headers : RequestHeaderMap) (msg : String) (delta k : Nat)
    (herr : (cfg.computeEffectiveConfiguration headers).1 = Except.error msg) :
    ((HttpTimeTrackingFilter.mk' cfg delta).decodeHeaders headers true).1 =
      FilterHeadersStatus.StopIteration ∧
    (((HttpTimeTrackingFilter.mk' cfg delta).decodeHeaders headers true).2).sent_replies =
      [⟨500, cfg.filter_name ++ " didn't understand the request: " ++ msg⟩] ∧
    ((HttpTimeTrackingFilter.mk' cfg delta).decodeHeaders headers false).1 =
      FilterHeadersStatus.Continue ∧
    (((HttpTimeTrackingFilter.mk' cfg delta).decodeHeaders headers false).2).sent_replies =
      [] ∧
    (decodeDataFold (((HttpTimeTrackingFilter.mk' cfg delta).decodeHeaders headers false).2)
        (List.replicate k false)).sent_replies = [] ∧
    ((decodeDataFold (((HttpTimeTrackingFilter.mk' cfg delta).decodeHeaders headers false).2)
        (List.replicate k false)).decodeData true).1 =
      FilterDataStatus.StopIterationNoBuffer ∧
    (((decodeDataFold (((HttpTimeTrackingFilter.mk' cfg delta).decodeHeaders headers false).2)
        (List.replicate k false)).decodeData true).2).sent_replies =
      [⟨500, cfg.filter_name ++ " didn't understand the request: " ++ msg⟩] := by
  have h1 : (HttpTimeTrackingFilter.mk' cfg delta).decodeHeaders headers false =
      (FilterHeadersStatus.Continue, ⟨cfg, Except.error msg, delta, []⟩) := by
    simp [HttpTimeTrackingFilter.decodeHeaders, HttpTimeTrackingFilter.mk',
      computeEffectiveConfiguration_state, herr]
  have h2 : (HttpTimeTrackingFilter.mk' cfg delta).decodeHeaders headers true =
      (FilterHeadersStatus.StopIteration,
        ⟨cfg, Except.error msg, delta,
          [⟨500, cfg.filter_name ++ " didn't understand the request: " ++ msg⟩]⟩) := by
    simp [HttpTimeTrackingFilter.decodeHeaders, HttpTimeTrackingFilter.mk',
      computeEffectiveConfiguration_state, herr, FilterConfigurationBase.validateOrSendError]
  have h3 : decodeDataFold (⟨cfg, Except.error msg, delta, []⟩ : HttpTimeTrackingFilter)
      (List.replicate k false) = ⟨cfg, Except.error msg, delta, []⟩ :=
    decodeDataFold_false _ k
  rw [h1, h2]
  refine ⟨rfl, rfl, rfl, rfl, ?_, ?_, ?_⟩
  · rw [h3]
  · rw [h3]; rfl
  · rw [h3]; rfl

theorem claim_C8_witness :
    (((HttpTimeTrackingFilter.mk' ⟨"time-tracking", ⟨200, "x-gap", none⟩⟩ 0).decodeHeaders
        [(testServerConfigHeaderName, OverrideHeaderValue.malformed "bad json")]
        false).2).sent_replies = [] ∧
    (decodeDataFold
        (((HttpTimeTrackingFilter.mk' ⟨"time-tracking", ⟨200, "x-gap", none⟩⟩ 0).decodeHeaders
          [(testServerConfigHeaderName, OverrideHeaderValue.malformed "bad json")]
          false).2)
        (List.replicate 2 false)).sent_replies = [] ∧
    (((decodeDataFold
        (((HttpTimeTrackingFilter.mk' ⟨"time-tracking", ⟨200, "x-gap", none⟩⟩ 0).decodeHeaders
          [(testServerConfigHeaderName, OverrideHeaderValue.malformed "bad json")]
          false).2)
        (List.replicate 2 false)).decodeData true).2).sent_replies =
      [⟨500, "time-tracking" ++ " didn't understand the request: " ++ "bad json"⟩] :=
  ⟨(claim_C8_error_reply_timing ⟨"time-tracking", ⟨200, "x-gap", none⟩⟩
      [(testServerConfigHeaderName, OverrideHeaderValue.malformed "bad json")]
      "bad json" 0 2 (by decide)).2.2.2.1,
   (claim_C8_error_reply_timing ⟨"time-tracking", ⟨200, "x-gap", none⟩⟩
      [(testServerConfigHeaderName, OverrideHeaderValue.malformed "bad json")]
      "bad json" 0 2 (by decide)).2.2.2.2.1,
   (claim_C8_error_reply_timing ⟨"time-tracking", ⟨200, "x-gap", none⟩⟩
      [(testServerConfigHeaderName, OverrideHeaderValue.malformed "bad json")]
      "bad json" 0 2 (by decide)).2.2.2.2.2.2⟩

theorem uint64Mod_pos : 0 < uint64Mod := by decide

theorem runCounter_append (v : Nat) (l1 l2 : List CounterOp) :
    runCounter v (l1 ++ l2) = runCounter (runCounter v l1) l2 := by
  simp [runCounter, List.foldl_append]

theorem runCounter_replicate_inc (n : Nat) (v : Nat) (hv : v < uint64Mod) :
    runCounter v (List.replicate n CounterOp.inc) = (v + n) % uint64Mod := by
  induction n generalizing v with
  | zero => simp [runCounter, Nat.mod_eq_of_lt hv]
  | succ m ih =>
      rw [List.replicate_succ]
      have hstep : runCounter v (CounterOp.inc :: List.replicate m CounterOp.inc) =
          runCounter ((v + 1) % uint64Mod) (List.replicate m CounterOp.inc) := by
        simp [runCounter, applyCounterOp,
          HttpDynamicDelayDecoderFilterConfig.incrementFilterInstanceCount,
          HttpDynamicDelayDecoderFilterConfig.instances]
      rw [hstep, ih _ (Nat.mod_lt _ uint64Mod_pos), Nat.mod_add_mod]
      congr 1
      omega

theorem runCounter_replicate_dec (n : Nat) (v : Nat) (hv : v < uint64Mod) :
    runCounter v (List.replicate n CounterOp.dec) =
      (v + n * (uint64Mod - 1)) % uint64Mod := by
  induction n generalizing v with
  | zero => simp [runCounter, Nat.mod_eq_of_lt hv]
  | succ m ih =>
      rw [List.replicate_succ]
      have hstep : runCounter v (CounterOp.dec :: List.replicate m CounterOp.dec) =
          runCounter ((v + (uint64Mod - 1)) % uint64Mod)
            (List.replicate m CounterOp.dec) := by
        simp [runCounter, applyCounterOp,
          HttpDynamicDelayDecoderFilterConfig.decrementFilterInstanceCount,
          HttpDynamicDelayDecoderFilterConfig.instances]
      rw [hstep, ih _ (Nat.mod_lt _ uint64Mod_pos), Nat.mod_add_mod]
      congr 1
      ring

/-- Claim C9: starting from a counter value of 0, performing N increments
followed by N decrements leaves the `uint64_t` counter at exactly 0 (for
any N, even across wraparound), and every value observable along the run —
`approximate_count` being a snapshot read of that value — is nonnegative. -/
theorem claim_C9_balanced_ops (N : Nat) :
    runCounter 0 (List.replicate N CounterOp.inc ++ List.replicate N CounterOp.dec) = 0 ∧
    (∀ v, v ∈ counterTrace 0
        (List.replicate N CounterOp.inc ++ List.replicate N CounterOp.dec) →
      0 ≤ (v : Int)) := by
  constructor
  · rw [runCounter_append, runCounter_replicate_inc N 0 uint64Mod_pos,
      runCounter_replicate_dec N _ (Nat.mod_lt _ uint64Mod_pos), Nat.mod_add_mod]
    have harith : N + N * (uint64Mod - 1) = N * uint64Mod := by
      unfold uint64Mod
      omega
    simp only [Nat.zero_add] at harith ⊢
    rw [harith]
    exact Nat.mul_mod_left N uint64Mod
  · intro v _
    exact Int.natCast_nonneg v

theorem claim_C9_witness :
    runCounter 0 (List.replicate 2 CounterOp.inc ++ List.replicate 2 CounterOp.dec) = 0 ∧
    0 ≤ ((2 : Nat) : Int) :=
  ⟨(claim_C9_balanced_ops 2).1, (claim_C9_balanced_ops 2).2 2 (by decide)⟩

/-- Claim C10: for every base configuration and every sequence of calls to
`computeEffectiveConfiguration` with arbitrary request headers, the stored
base configuration `server_config_` is never mutated — the merge is
applied to a copy — so the base observed by any later request equals the
base supplied at construction. -/
theorem claim_C10_base_never_mutated (self : FilterConfigurationBase)
    (requests : List RequestHeaderMap) :
    List.foldl
        (fun st headers => (FilterConfigurationBase.computeEffectiveConfiguration st headers).2)
        self requests = self ∧
    (∀ headers, ((self.computeEffectiveConfiguration headers).2).server_config =
      self.server_config) := by
  constructor
  · induction requests with
    | nil => rfl
    | cons h t ih =>
        rw [List.foldl_cons, computeEffectiveConfiguration_state]
        exact ih
  · intro headers
    rw [computeEffectiveConfiguration_state]

end Server

end Nighthawk
